import Mathlib

/-!
Verification development for the Vortex daemon's deployment core.

The definitions below are a shallow embedding of the daemon's source:
the path safety guard and archive routes, the state
store helpers, the install-script templating engine, the deployment
orchestrator of the create route, and the container power route.
Node/Express specifics (posix path resolution, JSON state file, promise
races) are modelled explicitly; filesystem and runtime effects are made
explicit state or explicit outcome parameters.
-/

namespace Vortex

/-! ## Posix path model

Node's path.resolve splits a path on the separator, drops empty and
dot segments, resolves parent segments against the stack, and renders
an absolute path.  Paths are modelled as character lists; the bases of
this repository are absolute constants, so a base is treated as an
absolute path. -/

/-- One-character posix separator. -/
def pathSep : Char := '/'

/-- Split a character list on the separator, like a posix path split. -/
def splitSep : List Char → List Char → List (List Char)
  | [], acc => [acc.reverse]
  | c :: rest, acc =>
    if c = pathSep then acc.reverse :: splitSep rest []
    else splitSep rest (c :: acc)

/-- Segments of a path string's characters. -/
def segsOf (s : List Char) : List (List Char) := splitSep s []

/-- One normalization step: empty and dot segments vanish, a parent
segment pops the stack (at the root it pops nothing), anything else is
pushed. -/
def normStep (acc : List (List Char)) (seg : List Char) : List (List Char) :=
  if seg = [] ∨ seg = ['.'] then acc
  else if seg = ['.', '.'] then acc.dropLast
  else acc ++ [seg]

/-- Normalize a segment list, as path.resolve does. -/
def normSegs (l : List (List Char)) : List (List Char) := l.foldl normStep []

/-- Render a normalized segment list as an absolute path; the empty
list is the filesystem root. -/
def renderAbs (segs : List (List Char)) : List Char :=
  if segs = [] then [pathSep]
  else segs.foldl (fun acc s => acc ++ pathSep :: s) []

/-- path.resolve(base, target): an absolute target stands alone, a
relative target is appended to the base before normalization. -/
def resolveJS (base target : List Char) : List Char :=
  match target with
  | c :: _ =>
    if c = pathSep then renderAbs (normSegs (segsOf target))
    else renderAbs (normSegs (segsOf base ++ segsOf target))
  | [] => renderAbs (normSegs (segsOf base))

/-- path.resolve(base) for the (absolute) base directory itself. -/
def resolvedBaseOf (base : String) : List Char :=
  renderAbs (normSegs (segsOf base.data))

/-- Error raised when a path escapes its root. -/
inductive PathErr where
  | OutsideRoot
deriving DecidableEq

/-- safePath(base, target) from the archive routes: resolve the base,
resolve the target against it, and fail unless the result starts with
the resolved base plus the separator or equals the resolved base. -/
def safePath (base target : String) : Except PathErr String :=
  let resolvedBase := resolvedBaseOf base
  let fullPath := resolveJS base.data target.data
  if fullPath = resolvedBase ∨ (resolvedBase ++ [pathSep]).isPrefixOf fullPath = true then
    Except.ok (String.mk fullPath)
  else
    Except.error PathErr.OutsideRoot

/-! ## State store

The state file holds a JSON array of records with an Id and a State,
both strings.  ensureStatesFile creates an empty array when the file is
absent, so an absent store is the empty list.  Reads and writes are
read-modify-write over the whole array; the functions below map an
input store to an output store. -/

/-- Error raised when an id has no record. -/
inductive StoreErr where
  | NotFound
deriving DecidableEq

/-- A record of the states file. -/
structure StateEntry where
  Id : String
  State : String
deriving DecidableEq

/-- setState(id, state): drop every record for the id, then append a
fresh record, and write the result back. -/
def setState (data : List StateEntry) (id state : String) : List StateEntry :=
  (data.filter fun entry => !(entry.Id == id)) ++ [{ Id := id, State := state }]

/-- getState(id): the state of the first record for the id, if any. -/
def getState (data : List StateEntry) (id : String) : Option String :=
  (data.find? fun entry => entry.Id == id).map fun entry => entry.State

/-- Mutate the first record for the id, as data.find followed by an
in-place State assignment does. -/
def updateFirst : List StateEntry → String → String → List StateEntry
  | [], _, _ => []
  | entry :: rest, id, state =>
    if entry.Id == id then { entry with State := state } :: rest
    else entry :: updateFirst rest id state

/-- setStateValue(id, state): update-only; throws when no record for
the id exists, otherwise rewrites the file with the first matching
record updated. -/
def setStateValue (data : List StateEntry) (id state : String) :
    Except StoreErr (List StateEntry) :=
  match data.find? fun entry => entry.Id == id with
  | none => Except.error StoreErr.NotFound
  | some _ => Except.ok (updateFirst data id state)

/-- The store after a setStateValue call: the throw happens before the
write, so a failing call leaves the file as it was. -/
def setStateValueStore (data : List StateEntry) (id state : String) : List StateEntry :=
  match setStateValue data id state with
  | Except.ok newData => newData
  | Except.error _ => data

/-! ## Install script templating engine

replaceVariables builds, for each mapping key, the regular expression
of the literal token of the key between double braces (the keys used by
the orchestrator contain no regex metacharacters, and unmatched braces
are literal in JS regexes), tests the current content, and on a match
replaces every non-overlapping occurrence left to right and marks the
file changed; the file is rewritten only when marked.  Replacement
values carry no dollar patterns, so they are inserted verbatim. -/

/-- The literal token of a mapping key: the key between double braces. -/
def varToken (key : String) : List Char :=
  ("\x7b\x7b" ++ key ++ "\x7d\x7d").data

/-- regex.test for a literal token: the token occurs somewhere in the
text, found by scanning each start position. -/
def occursTok (tok : List Char) : List Char → Bool
  | [] => tok.isPrefixOf []
  | c :: rest => tok.isPrefixOf (c :: rest) || occursTok tok rest

/-- Replace every non-overlapping occurrence of a token left to right,
with fuel bounding the scan; the caller passes the text length, which
is enough because every step consumes at least one character. -/
def replListFuel (tok rep : List Char) : Nat → List Char → List Char
  | _, [] => []
  | 0, s => s
  | Nat.succ n, c :: rest =>
    if tok ≠ [] ∧ tok.isPrefixOf (c :: rest) = true then
      rep ++ replListFuel tok rep n (List.drop (tok.length - 1) rest)
    else
      c :: replListFuel tok rep n rest

/-- String.replace with a global literal regex: every non-overlapping
occurrence replaced left to right. -/
def replList (tok rep s : List Char) : List Char :=
  replListFuel tok rep s.length s

/-- One step of the mapping fold of replaceVariables: when the token of
the key occurs, replace it everywhere and mark the content changed. -/
def rvStep (acc : String × Bool) (kv : String × String) : String × Bool :=
  if occursTok (varToken kv.1) acc.1.data then
    (String.mk (replList (varToken kv.1) kv.2.data acc.1.data), true)
  else acc

/-- The content pass of replaceVariables on one file: fold the variable
mapping over the content, tracking whether any substitution occurred. -/
def replaceVariablesContent (vars : List (String × String)) (content : String) :
    String × Bool :=
  vars.foldl rvStep (content, false)

/-- The per-file action of replaceVariables: jar files are skipped, and
a file is rewritten (some new content) only when at least one
substitution occurred; none means the file is left unwritten. -/
def replaceVariablesFile (fileName content : String)
    (vars : List (String × String)) : Option String :=
  if (".jar").data.isSuffixOf fileName.data then none
  else
    let r := replaceVariablesContent vars content
    if r.2 then some r.1 else none

/-! ## Deployment orchestrator

The create route drives a fresh deployment: it sets PULLING_IMAGE,
pulls the image, sets CREATING_VOLUME, makes the volume directory, sets
CREATING_CONTAINER, creates the container, answers 201 with a body
whose state field is the literal INSTALLING, then, when install scripts
were supplied, sets INSTALLING and runs download and substitution, on
failure settling at INSTALLATION_FAILED without starting the container,
and otherwise sets STARTING, starts the container and sets RUNNING; any
exception before the response was sent answers 500 and settles at
FAILED.  The outcome of each collaborator call is an explicit flag. -/

/-- Lifecycle states written to the state store. -/
inductive InstState where
  | PULLING_IMAGE
  | CREATING_VOLUME
  | CREATING_CONTAINER
  | INSTALLING
  | INSTALLATION_FAILED
  | STARTING
  | RUNNING
  | FAILED
  | DELETED
deriving DecidableEq

/-- Outcomes of the collaborator calls a deployment makes, in program
order: image pull, volume mkdir, container create, script download,
variable substitution, container start. -/
structure Runtime where
  pullOk : Bool
  mkdirOk : Bool
  createOk : Bool
  downloadOk : Bool
  substOk : Bool
  startOk : Bool
deriving DecidableEq

/-- Everything observable about one run of the create route: the states
written to the store in order, the state held by the store when the
HTTP response goes out, the response status and its body state field,
and whether the container was created and whether start was invoked. -/
structure CreateOutcome where
  trace : List InstState
  stateAtResponse : Option InstState
  respStatus : Option Nat
  respStateField : Option String
  containerCreated : Bool
  startInvoked : Bool
deriving DecidableEq

/-- The create route on a request with a valid Image and Id, with the
install-script set abstracted to whether any scripts were supplied.
A start failure after the response cannot change the already-sent 201
status; its catch still records FAILED. -/
def createRoute (rt : Runtime) (hasScripts : Bool) : CreateOutcome :=
  if rt.pullOk = false then
    { trace := [InstState.PULLING_IMAGE, InstState.FAILED]
      stateAtResponse := none
      respStatus := some 500
      respStateField := none
      containerCreated := false
      startInvoked := false }
  else if rt.mkdirOk = false then
    { trace := [InstState.PULLING_IMAGE, InstState.CREATING_VOLUME, InstState.FAILED]
      stateAtResponse := none
      respStatus := some 500
      respStateField := none
      containerCreated := false
      startInvoked := false }
  else if rt.createOk = false then
    { trace := [InstState.PULLING_IMAGE, InstState.CREATING_VOLUME,
        InstState.CREATING_CONTAINER, InstState.FAILED]
      stateAtResponse := none
      respStatus := some 500
      respStateField := none
      containerCreated := false
      startInvoked := false }
  else
    if hasScripts then
      if rt.downloadOk = false ∨ rt.substOk = false then
        { trace := [InstState.PULLING_IMAGE, InstState.CREATING_VOLUME,
            InstState.CREATING_CONTAINER, InstState.INSTALLING,
            InstState.INSTALLATION_FAILED]
          stateAtResponse := some InstState.CREATING_CONTAINER
          respStatus := some 201
          respStateField := some ("INSTALLING")
          containerCreated := true
          startInvoked := false }
      else if rt.startOk then
        { trace := [InstState.PULLING_IMAGE, InstState.CREATING_VOLUME,
            InstState.CREATING_CONTAINER, InstState.INSTALLING,
            InstState.STARTING, InstState.RUNNING]
          stateAtResponse := some InstState.CREATING_CONTAINER
          respStatus := some 201
          respStateField := some ("INSTALLING")
          containerCreated := true
          startInvoked := true }
      else
        { trace := [InstState.PULLING_IMAGE, InstState.CREATING_VOLUME,
            InstState.CREATING_CONTAINER, InstState.INSTALLING,
            InstState.STARTING, InstState.FAILED]
          stateAtResponse := some InstState.CREATING_CONTAINER
          respStatus := some 201
          respStateField := some ("INSTALLING")
          containerCreated := true
          startInvoked := true }
    else if rt.startOk then
      { trace := [InstState.PULLING_IMAGE, InstState.CREATING_VOLUME,
          InstState.CREATING_CONTAINER, InstState.STARTING, InstState.RUNNING]
        stateAtResponse := some InstState.CREATING_CONTAINER
        respStatus := some 201
        respStateField := some ("INSTALLING")
        containerCreated := true
        startInvoked := true }
    else
      { trace := [InstState.PULLING_IMAGE, InstState.CREATING_VOLUME,
          InstState.CREATING_CONTAINER, InstState.STARTING, InstState.FAILED]
        stateAtResponse := some InstState.CREATING_CONTAINER
        respStatus := some 201
        respStateField := some ("INSTALLING")
        containerCreated := true
        startInvoked := true }

/-! ## Container power route

The route checks the id, checks the container exists, then races the
docker call against a promisified setTimeout of five seconds.  Node's
promisified setTimeout fulfills with its second argument after the
delay and never rejects, so when the docker call outlasts the timer the
race fulfills and control falls through to the success response; the
catch branch comparing the error message against the timer text can
only fire on an exception carrying that exact message. -/

/-- The five second operation bound of the power route. -/
def OPERATION_TIMEOUT : Nat := 5000

/-- The supported power actions. -/
def powerActions : List String :=
  [("start"), ("stop"), ("restart"), ("pause"), ("unpause"), ("kill")]

/-- Eventual outcome of the docker call itself. -/
inductive OpOutcome where
  | ok
  | err304
  | errMsg (msg : String)
deriving DecidableEq

/-- The power route: 404 for a missing container, 400 for an unknown
action, and otherwise the result of racing the docker call against the
resolving timer; settlesInTime says whether the docker call settles
before the five second timer fires. -/
def powerRoute (containerFound : Bool) (power : String) (settlesInTime : Bool)
    (outcome : OpOutcome) : Nat :=
  if containerFound = false then 404
  else if (powerActions.contains power) = false then 400
  else if settlesInTime then
    match outcome with
    | OpOutcome.ok => 200
    | OpOutcome.err304 => 400
    | OpOutcome.errMsg m => if m = ("Operation timed out") then 504 else 500
  else 200

/-! ## Archive manager

The archive root and the volume root are fixed base directories; the
routes file sits next to them, so its directory is modelled as
/app/routes and the two roots resolve as below.  Archive creation
tracks the cumulative compressed output over the data events of the
zip stream; once it exceeds the maximum the archiver is aborted, the
partial file is unlinked and the route answers 413.  The store of the
archive subdirectory is the list of its file names. -/

/-- The archives root, path.join of the routes directory and
../archives. -/
def ARCHIVES_DIR : String := "/app/archives"

/-- The volumes root, path.join of the routes directory and
../volumes. -/
def VOLUMES_DIR : String := "/app/volumes"

/-- 5 GB maximum archive size. -/
def MAX_ARCHIVE_SIZE : Nat := 1024 * 1024 * 1024 * 5

/-- One data event of the zip stream: add the chunk length to the
total and flag the abort once the total exceeds the maximum; after the
abort no further data is accounted. -/
def archiveDataStep (acc : Nat × Bool) (chunk : Nat) : Nat × Bool :=
  if acc.2 then acc
  else (acc.1 + chunk, decide (MAX_ARCHIVE_SIZE < acc.1 + chunk))

/-- Whether the size guard aborted the archive over these chunk
lengths. -/
def archiveAborted (chunks : List Nat) : Bool :=
  (chunks.foldl archiveDataStep (0, false)).2

/-- The create-archive route on the instance's archive directory: the
write stream creates the file, and an aborted archive is unlinked
before the 413 answer; otherwise the file stays and the route answers
200. -/
def createArchiveRoute (store : List String) (archiveName : String)
    (chunks : List Nat) : Nat × List String :=
  let store1 := store ++ [archiveName]
  if archiveAborted chunks then (413, store1.erase archiveName)
  else (200, store1)

/-- The list route enumerates the files of the archive directory. -/
def listArchivesRoute (store : List String) : List String := store

/-! ## Path safety guard application on the archive routes

isValidArchiveName accepts one or more characters from the restricted
class and rejects any name with a parent-directory pair; each route
applies its validations and safePath resolutions, in source order,
before any disk access, and the predicates below say whether a request
reaches disk. -/

/-- The restricted identifier character class. -/
def isAllowedNameChar (c : Char) : Bool :=
  c.isAlpha || c.isDigit || c == '_' || c == '-' || c == '.'

/-- isValidArchiveName: the anchored character-class regex plus the
parent-directory rejection. -/
def isValidArchiveName (name : String) : Bool :=
  !name.data.isEmpty && name.data.all isAllowedNameChar
    && !(occursTok (['.', '.']) name.data)

/-- Whether safePath succeeds, the routes catching its throw. -/
def safePathOk (base target : String) : Bool :=
  match safePath base target with
  | Except.ok _ => true
  | Except.error _ => false

/-- path.join of two already-validated segments: concatenation with one
separator (join's normalization is the identity on separator-free,
dot-free segments). -/
def joinSeg (a b : String) : String := a ++ ("/") ++ b

/-- The pre-disk checks of the list route: validate the id, resolve it
under the archive root. -/
def listProceeds (id : String) : Bool :=
  isValidArchiveName id && safePathOk ARCHIVES_DIR id

/-- The pre-disk checks of the create route: validate the volume id,
resolve it under the volume root, resolve the instance id under the
archive root; the instance id is never passed to
isValidArchiveName. -/
def createProceeds (id volumeId : String) : Bool :=
  isValidArchiveName volumeId && safePathOk VOLUMES_DIR volumeId
    && safePathOk ARCHIVES_DIR id

/-- The pre-disk checks of the download route: validate both segments,
resolve their join under the archive root. -/
def downloadProceeds (id archiveName : String) : Bool :=
  isValidArchiveName id && isValidArchiveName archiveName
    && safePathOk ARCHIVES_DIR (joinSeg id archiveName)

/-- The pre-disk checks of the delete route, identical to download. -/
def deleteProceeds (id archiveName : String) : Bool :=
  isValidArchiveName id && isValidArchiveName archiveName
    && safePathOk ARCHIVES_DIR (joinSeg id archiveName)

end Vortex

namespace Vortex

/-- After dropping every record for an id, an appended fresh record is
the one found for that id. -/
lemma find_filter_append (data : List StateEntry) (id state : String) :
    ((data.filter fun entry => !(entry.Id == id))
        ++ [({ Id := id, State := state } : StateEntry)]).find?
      (fun entry => entry.Id == id) = some { Id := id, State := state } := by
  induction data with
  | nil => simp [List.find?]
  | cons e es ih =>
    by_cases h : e.Id = id
    · simp [List.filter_cons, h]
    · simp [List.filter_cons, h, List.find?]

/-- Claim C7: for every instance id and every state value, setState
then getState returns exactly that state, and setState replaces any
prior record for the id, leaving exactly one record for it. -/
theorem setState_getState_roundtrip :
    ∀ (data : List StateEntry) (id state : String),
      getState (setState data id state) id = some state
      ∧ (setState data id state).countP (fun entry => entry.Id == id) = 1 := by
  intro data id state
  constructor
  · simp only [getState, setState]
    rw [find_filter_append]
    rfl
  · rw [setState, List.countP_append]
    have h0 : (data.filter fun entry => !(entry.Id == id)).countP
        (fun entry => entry.Id == id) = 0 := by
      refine List.countP_eq_zero.mpr ?_
      intro a ha
      have := (List.mem_filter.mp ha).2
      simp_all
    simp [h0, List.countP_cons]

/-- Witness for C7 at a concrete id and state. -/
theorem setState_getState_roundtrip_witness :
    getState (setState [] ("app1") ("RUNNING")) ("app1") = some ("RUNNING")
    ∧ (setState [] ("app1") ("RUNNING")).countP (fun entry => entry.Id == ("app1")) = 1 :=
  setState_getState_roundtrip [] ("app1") ("RUNNING")

/-- Claim C8: setStateValue on an id with no record fails with NotFound
and leaves the store unchanged; in particular no record is created. -/
theorem setStateValue_missing_id_notfound :
    ∀ (data : List StateEntry) (id state : String),
      data.find? (fun entry => entry.Id == id) = none →
        setStateValue data id state = Except.error StoreErr.NotFound
        ∧ setStateValueStore data id state = data
        ∧ getState (setStateValueStore data id state) id = none := by
  intro data id state h
  have h1 : setStateValue data id state = Except.error StoreErr.NotFound := by
    simp [setStateValue, h]
  exact ⟨h1, by simp [setStateValueStore, h1],
    by simp [setStateValueStore, h1, getState, h]⟩

/-- Witness for C8 on the empty store. -/
theorem setStateValue_missing_id_notfound_witness :
    setStateValue [] ("app1") ("RUNNING") = Except.error StoreErr.NotFound
    ∧ setStateValueStore [] ("app1") ("RUNNING") = []
    ∧ getState (setStateValueStore [] ("app1") ("RUNNING")) ("app1") = none :=
  setStateValue_missing_id_notfound [] ("app1") ("RUNNING") rfl

/-- Claim C1: safePath fails with an OutsideRoot error unless the
resolved absolute path equals the resolved base or is a strict
descendant of it, the descendant check being a prefix match on the
resolved base plus the path separator; a sibling such as /data/ab is
rejected under base /data/a, and a path resolving inside the root
succeeds and returns the resolved absolute path. -/
theorem safePath_contract :
    (∀ base target : String,
      (safePath base target = Except.error PathErr.OutsideRoot ∨
        safePath base target = Except.ok (String.mk (resolveJS base.data target.data)))
      ∧ (safePath base target = Except.ok (String.mk (resolveJS base.data target.data)) ↔
          (resolveJS base.data target.data = resolvedBaseOf base ∨
            ∃ rest, resolveJS base.data target.data = resolvedBaseOf base ++ pathSep :: rest)))
    ∧ safePath ("/data/a") ("../ab") = Except.error PathErr.OutsideRoot
    ∧ safePath ("/data/a") ("b") = Except.ok ("/data/a/b") := by
  refine ⟨fun base target => ?_, by rfl, by rfl⟩
  by_cases h : resolveJS base.data target.data = resolvedBaseOf base ∨
      (resolvedBaseOf base ++ [pathSep]).isPrefixOf (resolveJS base.data target.data) = true
  · constructor
    · right
      simp only [safePath, h, if_pos]
    · constructor
      · intro _
        rcases h with h | h
        · exact Or.inl h
        · obtain ⟨t, ht⟩ := List.isPrefixOf_iff_prefix.mp h
          exact Or.inr ⟨t, by rw [← ht]; simp⟩
      · intro _
        simp only [safePath, h, if_pos]
  · constructor
    · left
      simp only [safePath, h, if_neg, not_false_iff]
    · constructor
      · intro hok
        simp only [safePath, h, if_neg, not_false_iff] at hok
        exact Except.noConfusion hok
      · intro hd
        exfalso
        apply h
        rcases hd with hd | ⟨rest, hrest⟩
        · exact Or.inl hd
        · refine Or.inr (List.isPrefixOf_iff_prefix.mpr ⟨rest, ?_⟩)
          rw [hrest]
          simp

/-- Witness for C1 at a concrete accepted path. -/
theorem safePath_contract_witness :
    safePath ("/data/a") ("b") = Except.ok ("/data/a/b") :=
  safePath_contract.2.2

/-- Once the changed flag is set, the rest of the mapping fold keeps
it set. -/
lemma rvFold_true :
    ∀ (vars : List (String × String)) (c : String),
      ((vars.foldl rvStep (c, true)).2 = true) := by
  intro vars
  induction vars with
  | nil => intro c; rfl
  | cons kv rest ih =>
    intro c
    show (rest.foldl rvStep (rvStep (c, true) kv)).2 = true
    simp only [rvStep]
    split
    · exact ih _
    · exact ih c

/-- When no mapping token occurs in the content, the fold changes
nothing and the flag stays clear. -/
lemma rvFold_nomatch :
    ∀ (vars : List (String × String)) (c : String),
      (∀ kv ∈ vars, occursTok (varToken kv.1) c.data = false) →
      vars.foldl rvStep (c, false) = (c, false) := by
  intro vars
  induction vars with
  | nil => intro c _; rfl
  | cons kv rest ih =>
    intro c h
    have hhead : occursTok (varToken kv.1) c.data = false := h kv (by simp)
    have hstep : rvStep (c, false) kv = (c, false) := by simp [rvStep, hhead]
    rw [List.foldl_cons, hstep]
    exact ih c fun kv2 hm => h kv2 (by simp [hm])

/-- A clear flag after the fold means the content is unchanged and no
mapping token occurred in it. -/
lemma rvFold_false_nomatch :
    ∀ (vars : List (String × String)) (c : String),
      (vars.foldl rvStep (c, false)).2 = false →
      (vars.foldl rvStep (c, false)).1 = c
      ∧ ∀ kv ∈ vars, occursTok (varToken kv.1) c.data = false := by
  intro vars
  induction vars with
  | nil => intro c _; exact ⟨rfl, by simp⟩
  | cons kv rest ih =>
    intro c h
    rw [List.foldl_cons] at h ⊢
    cases hocc : occursTok (varToken kv.1) c.data with
    | true =>
      exfalso
      have hstep : rvStep (c, false) kv
          = (String.mk (replList (varToken kv.1) kv.2.data c.data), true) := by
        simp [rvStep, hocc]
      rw [hstep] at h
      rw [rvFold_true rest _] at h
      exact Bool.noConfusion h
    | false =>
      have hstep : rvStep (c, false) kv = (c, false) := by simp [rvStep, hocc]
      rw [hstep] at h ⊢
      obtain ⟨h1, h2⟩ := ih c h
      refine ⟨h1, ?_⟩
      intro kv2 hm
      rcases List.mem_cons.mp hm with hm | hm
      · rw [hm]; exact hocc
      · exact h2 kv2 hm

/-- Claim C9: for a file processed by the variable substitution step,
the flag is clear exactly when no mapping token occurs in the content,
a clear flag leaves the content untouched (the file is rewritten only
if a substitution occurred), and the concrete scenario holds: mapping
PORT to 25565 rewrites server-port between double braces to
server-port=25565, occurrences are replaced for every position, and a
file with no matching token is left unwritten. -/
theorem replaceVariables_substitution :
    (∀ (content : String) (vars : List (String × String)),
      ((replaceVariablesContent vars content).2 = false ↔
        ∀ kv ∈ vars, occursTok (varToken kv.1) content.data = false)
      ∧ ((replaceVariablesContent vars content).2 = false →
          (replaceVariablesContent vars content).1 = content))
    ∧ replaceVariablesContent [(("PORT"), ("25565"))] ("server-port=\x7b\x7bPORT\x7d\x7d")
        = (("server-port=25565"), true)
    ∧ replaceVariablesContent [(("PORT"), ("1"))] ("a=\x7b\x7bPORT\x7d\x7d,b=\x7b\x7bPORT\x7d\x7d")
        = (("a=1,b=1"), true)
    ∧ replaceVariablesFile ("server.properties") ("no tokens here") [(("PORT"), ("25565"))]
        = none := by
  refine ⟨fun content vars => ⟨⟨?_, ?_⟩, ?_⟩, by rfl, by rfl, by rfl⟩
  · intro h
    exact (rvFold_false_nomatch vars content h).2
  · intro h
    rw [replaceVariablesContent, rvFold_nomatch vars content h]
  · intro h
    exact (rvFold_false_nomatch vars content h).1

/-- Witness for C9: a content with no token is reported unchanged. -/
theorem replaceVariables_substitution_witness :
    (replaceVariablesContent [(("PORT"), ("25565"))] ("x")).2 = false
    ∧ (replaceVariablesContent [(("PORT"), ("25565"))] ("x")).1 = ("x") := by
  have h := replaceVariables_substitution.1 ("x") [(("PORT"), ("25565"))]
  exact ⟨h.1.mpr (by decide), h.2 (h.1.mpr (by decide))⟩

/-- Claim C2: a fresh deployment with no install scripts in which every
collaborator call succeeds writes exactly PULLING_IMAGE,
CREATING_VOLUME, CREATING_CONTAINER, STARTING, RUNNING to the state
store, in that order, with no intermediate INSTALLING state. -/
theorem create_state_sequence_no_scripts :
    (createRoute (Runtime.mk true true true true true true) false).trace
      = [InstState.PULLING_IMAGE, InstState.CREATING_VOLUME,
          InstState.CREATING_CONTAINER, InstState.STARTING, InstState.RUNNING]
    ∧ InstState.INSTALLING ∉
        (createRoute (Runtime.mk true true true true true true) false).trace := by
  decide

/-- Claim C3: when install scripts were supplied and the script
download, or the subsequent variable substitution, fails, the run
settles at INSTALLATION_FAILED, the container has been created, and
container.start() is never invoked. -/
theorem install_failure_leaves_container_unstarted :
    ∀ rt : Runtime, rt.pullOk = true → rt.mkdirOk = true → rt.createOk = true →
      (rt.downloadOk = false ∨ rt.substOk = false) →
      (createRoute rt true).trace.getLast? = some InstState.INSTALLATION_FAILED
      ∧ (createRoute rt true).containerCreated = true
      ∧ (createRoute rt true).startInvoked = false := by
  intro rt h1 h2 h3 h4
  obtain ⟨p, m, c, d, s, st⟩ := rt
  simp only at h1 h2 h3 h4
  subst h1 h2 h3
  rcases h4 with h4 | h4
  · subst h4
    cases s <;> cases st <;> decide
  · subst h4
    cases d <;> cases st <;> decide

/-- Witness for C3 at a concrete failing download. -/
theorem install_failure_leaves_container_unstarted_witness :
    (createRoute (Runtime.mk true true true false true true) true).trace.getLast?
      = some InstState.INSTALLATION_FAILED
    ∧ (createRoute (Runtime.mk true true true false true true) true).containerCreated = true
    ∧ (createRoute (Runtime.mk true true true false true true) true).startInvoked = false :=
  install_failure_leaves_container_unstarted
    (Runtime.mk true true true false true true) rfl rfl rfl (Or.inl rfl)

/-- Claim C10: every create request that reaches the response answers
201 with a body state field of INSTALLING, regardless of whether
install scripts were supplied, while the state recorded in the store at
response time is CREATING_CONTAINER; without scripts the instance never
enters an INSTALLING state. -/
theorem create_response_reports_installing :
    ∀ (rt : Runtime) (hasScripts : Bool),
      rt.pullOk = true → rt.mkdirOk = true → rt.createOk = true →
      (createRoute rt hasScripts).respStatus = some 201
      ∧ (createRoute rt hasScripts).respStateField = some ("INSTALLING")
      ∧ (createRoute rt hasScripts).stateAtResponse = some InstState.CREATING_CONTAINER
      ∧ (hasScripts = false → InstState.INSTALLING ∉ (createRoute rt hasScripts).trace) := by
  intro rt hasScripts h1 h2 h3
  obtain ⟨p, m, c, d, s, st⟩ := rt
  simp only at h1 h2 h3
  subst h1 h2 h3
  cases hasScripts <;> cases d <;> cases s <;> cases st <;> decide

/-- Witness for C10 on the all-success run without scripts. -/
theorem create_response_reports_installing_witness :
    (createRoute (Runtime.mk true true true true true true) false).respStatus = some 201
    ∧ (createRoute (Runtime.mk true true true true true true) false).respStateField
        = some ("INSTALLING")
    ∧ (createRoute (Runtime.mk true true true true true true) false).stateAtResponse
        = some InstState.CREATING_CONTAINER
    ∧ (false = false → InstState.INSTALLING ∉
        (createRoute (Runtime.mk true true true true true true) false).trace) :=
  create_response_reports_installing
    (Runtime.mk true true true true true true) false rfl rfl rfl

/-- Claim C4 (divergence witness): on an existing container, a power
action whose docker call does not settle within the five second bound
answers 200 success, whatever the docker call would eventually return,
because the promisified setTimeout fulfills rather than rejects; the
504 operation-timeout response is never produced on this path. -/
theorem power_timeout_returns_success_not_504 :
    ∀ outcome : OpOutcome,
      powerRoute true ("stop") false outcome = 200
      ∧ powerRoute true ("stop") false outcome ≠ 504 := by
  intro outcome
  have h200 : powerRoute true ("stop") false outcome = 200 := rfl
  refine ⟨h200, ?_⟩
  intro hcon
  rw [h200] at hcon
  exact absurd hcon (by decide)

/-- Once the size guard aborted, further data events change nothing. -/
lemma archiveDataStep_stuck :
    ∀ (chunks : List Nat) (n : Nat),
      chunks.foldl archiveDataStep (n, true) = (n, true) := by
  intro chunks
  induction chunks with
  | nil => intro n; rfl
  | cons c cs ih =>
    intro n
    rw [List.foldl_cons]
    have hstep : archiveDataStep (n, true) c = (n, true) := by
      simp [archiveDataStep]
    rw [hstep]
    exact ih n

/-- Starting below the cap, the abort flag after all data events says
exactly whether the cumulative total exceeds the cap. -/
lemma archiveAborted_eq :
    ∀ (chunks : List Nat) (n : Nat), n ≤ MAX_ARCHIVE_SIZE →
      (chunks.foldl archiveDataStep (n, false)).2
        = decide (MAX_ARCHIVE_SIZE < n + chunks.sum) := by
  intro chunks
  induction chunks with
  | nil =>
    intro n h
    simp only [List.foldl_nil, List.sum_nil, Nat.add_zero]
    symm
    rw [decide_eq_false_iff_not]
    omega
  | cons c cs ih =>
    intro n h
    rw [List.foldl_cons]
    have hstep : archiveDataStep (n, false) c
        = (n + c, decide (MAX_ARCHIVE_SIZE < n + c)) := by
      simp [archiveDataStep]
    rw [hstep, List.sum_cons]
    cases hlt : decide (MAX_ARCHIVE_SIZE < n + c) with
    | true =>
      rw [archiveDataStep_stuck]
      have := of_decide_eq_true hlt
      symm
      rw [decide_eq_true_iff]
      omega
    | false =>
      have hle : n + c ≤ MAX_ARCHIVE_SIZE := by
        have := of_decide_eq_false hlt
        omega
      rw [ih (n + c) hle, Nat.add_assoc]

/-- Claim C5: an archive whose cumulative compressed output exceeds the
configured maximum is aborted, the partial file is deleted, the route
reports the size-limit error as 413, and a subsequent listing does not
contain the partial file. -/
theorem archive_size_limit_aborts_and_cleans :
    ∀ (store : List String) (archiveName : String) (chunks : List Nat),
      archiveName ∉ store → MAX_ARCHIVE_SIZE < chunks.sum →
      (createArchiveRoute store archiveName chunks).1 = 413
      ∧ archiveName ∉ listArchivesRoute (createArchiveRoute store archiveName chunks).2 := by
  intro store archiveName chunks hnm hsum
  have hab : archiveAborted chunks = true := by
    rw [archiveAborted, archiveAborted_eq chunks 0 (Nat.zero_le _)]
    rw [decide_eq_true_iff]
    omega
  constructor
  · simp [createArchiveRoute, hab]
  · simp only [createArchiveRoute, hab, if_pos, listArchivesRoute]
    rw [List.erase_append_right _ hnm, List.erase_cons_head]
    simpa using hnm

/-- Witness for C5: one oversized chunk is aborted and not listed. -/
theorem archive_size_limit_aborts_and_cleans_witness :
    (createArchiveRoute [] ("v1.zip") [5368709121]).1 = 413
    ∧ ("v1.zip") ∉ listArchivesRoute (createArchiveRoute [] ("v1.zip") [5368709121]).2 :=
  archive_size_limit_aborts_and_cleans [] ("v1.zip") [5368709121] (by simp) (by decide)

/-- Claim C6 counterexample: the create route reaches disk for the
instance id a/b, which the restricted-character-class validation
rejects, so not every archive operation applies both guard checks to
the instance id segment. -/
theorem archive_guard_counterexample :
    createProceeds ("a/b") ("v1") = true ∧ isValidArchiveName ("a/b") = false := by
  constructor
  · rfl
  · rfl

/-- Claim C6 as amended: before touching disk, the list route applies
both checks to its only segment, the instance id; the download and
delete routes apply the character-class validation to the instance id
and the archive filename independently and the resolution check to
their joined path; the create route applies both checks to the volume
id but only the resolution check to the instance id. -/
theorem archive_guard_checks_amended :
    ∀ id volumeId archiveName : String,
      (listProceeds id = true ↔
        isValidArchiveName id = true ∧ safePathOk ARCHIVES_DIR id = true)
      ∧ (createProceeds id volumeId = true ↔
          isValidArchiveName volumeId = true ∧ safePathOk VOLUMES_DIR volumeId = true
            ∧ safePathOk ARCHIVES_DIR id = true)
      ∧ (downloadProceeds id archiveName = true ↔
          isValidArchiveName id = true ∧ isValidArchiveName archiveName = true
            ∧ safePathOk ARCHIVES_DIR (joinSeg id archiveName) = true)
      ∧ (deleteProceeds id archiveName = true ↔ downloadProceeds id archiveName = true) := by
  intro id volumeId archiveName
  refine ⟨?_, ?_, ?_, Iff.rfl⟩
  · simp [listProceeds, Bool.and_eq_true]
  · simp [createProceeds, Bool.and_eq_true, and_assoc]
  · simp [downloadProceeds, Bool.and_eq_true, and_assoc]

/-- Witness for C6 as amended: a valid id passes the list route's
checks. -/
theorem archive_guard_checks_amended_witness :
    listProceeds ("v1") = true ∧ isValidArchiveName ("v1") = true := by
  have h := archive_guard_checks_amended ("v1") ("v1") ("a.zip")
  exact ⟨by rfl, (h.1.mp (by rfl)).1⟩

end Vortex
